import Mathlib

/-!
# Verification of `app/src/terminal/native/pty.c`

The C file is a thin layer over POSIX calls.  Every function is embedded as a
small straight-line program (`Prog`) that issues the same requests to the
operating system, in the same order and with the same arguments, as the C
code, and that decides its return value from the replies exactly as the C
code does.  A program is run against an arbitrary step function standing for
the operating system; the run records every request together with its reply.
-/

namespace Pty

/-! ## Platform constants and types -/

/-- Modelled from the spec: the constant `O_NONBLOCK` of `<fcntl.h>` is not under
`src/`; this is its value on Linux (octal 04000). -/
def O_NONBLOCK : Nat := 2048

/-- Modelled from the spec: the constant `WNOHANG` of `<sys/wait.h>` is not under
`src/`; its value is 1. -/
def WNOHANG : Int := 1

/-- Modelled from the spec: the error number `ENOENT` of `<errno.h>` (no such file) is not
under `src/`. -/
def ENOENT : Int := 2

/-- Modelled from the spec: the error number `ESRCH` of `<errno.h>` (no such process) is not
under `src/`. -/
def ESRCH : Int := 3

/-- Modelled from the spec: the error number `EBADF` of `<errno.h>` (bad file descriptor) is not
under `src/`. -/
def EBADF : Int := 9

/-- Modelled from the spec: the error number `ECHILD` of `<errno.h>` (no child processes) is not
under `src/`. -/
def ECHILD : Int := 10

/-- Modelled from the spec: the error number `EAGAIN` of `<errno.h>` (resource temporarily unavailable) is not
under `src/`. -/
def EAGAIN : Int := 11

/-- The `struct winsize` of `<sys/ioctl.h>`: four `unsigned short` fields. -/
structure winsize where
  ws_row : Int
  ws_col : Int
  ws_xpixel : Int
  ws_ypixel : Int
deriving DecidableEq, Repr

/-- The C conversion `(unsigned short)x` of an `int`: reduction modulo `2^16`. -/
def to_unsigned_short (x : Int) : Int := x % 65536

/-- The C conversion `(signed char)x` of an `int` (two's complement, 8 bits). -/
def to_signed_char (x : Int) : Int := (x + 128) % 256 - 128

/-- The C expression `flags | O_NONBLOCK` for a non-negative `int flags`. -/
def or_O_NONBLOCK (flags : Int) : Int := Int.ofNat (flags.toNat ||| O_NONBLOCK)

/-! ## Wait-status macros

The macros come from the platform header `<sys/wait.h>`, which the source
includes but which is not part of the repository.  They are given here with the
bodies of the Linux C library (`bits/waitstatus.h`); `x & 0x7f` is `x % 128` and
`(x & 0xff00) >> 8` is `(x / 256) % 256` on two's complement integers. -/

/-- Modelled from the spec: the macro `WTERMSIG` of `<sys/wait.h>` is not under
`src/`; the signal number that killed the child, `status & 0x7f`. -/
def WTERMSIG (status : Int) : Int := status % 128

/-- Modelled from the spec: the macro `WEXITSTATUS` of `<sys/wait.h>` is not
under `src/`; the exit code 0-255, `(status & 0xff00) >> 8`. -/
def WEXITSTATUS (status : Int) : Int := (status / 256) % 256

/-- Modelled from the spec: the macro `WIFEXITED` of `<sys/wait.h>` is not under
`src/`; the child exited normally, `WTERMSIG(status) == 0`. -/
def WIFEXITED (status : Int) : Bool := WTERMSIG status == 0

/-- Modelled from the spec: the macro `WIFSIGNALED` of `<sys/wait.h>` is not
under `src/`; the child was killed by a signal,
`((signed char)((status & 0x7f) + 1) >> 1) > 0`. -/
def WIFSIGNALED (status : Int) : Bool :=
  decide (0 < to_signed_char (status % 128 + 1) / 2)

/-! ## Requests, replies and programs -/

/-- The calls the C file makes into the C library and the kernel. -/
inductive Request where
  | forkpty (ws : winsize)
  | setenv (name value : String) (overwrite : Int)
  | getenv (name : String)
  | execl (path : String) (argv : List String)
  | _exit (code : Int)
  | read (fd : Int) (count : Nat)
  | write (fd : Int) (buf : List Nat) (count : Nat)
  | fcntl_GETFL (fd : Int)
  | fcntl_SETFL (fd : Int) (flags : Int)
  | close (fd : Int)
  | kill (pid sig : Int)
  | waitpid (pid options : Int)
  | ioctl_TIOCSWINSZ (fd : Int) (ws : winsize)
deriving DecidableEq, Repr

/-- What a call hands back: its return value, the value of `errno` after the
call, the integer it stored through its out-parameter (`master_fd` for
`forkpty`, `status` for `waitpid`) and the string returned by `getenv`. -/
structure Reply where
  ret : Int
  errno : Int
  out : Int
  str : Option String
deriving DecidableEq, Repr

/-- A call failed when its return value is negative; this is the test the C
code applies to every call (POSIX calls return `-1` on failure). -/
def Reply.failed (r : Reply) : Prop := r.ret < 0

instance (r : Reply) : Decidable r.failed := by unfold Reply.failed; infer_instance

/-- A straight-line C function body: it returns, or makes a call and continues
with the reply, or makes a call that cannot return (`_exit`). -/
inductive Prog (α : Type) where
  | done (a : α)
  | call (rq : Request) (k : Reply → Prog α)
  | stop (rq : Request)

/-- One recorded call: the request and the reply (`none` when the call did not
return, as a successful `execl` or `_exit`). -/
structure Event where
  rq : Request
  reply : Option Reply
deriving DecidableEq, Repr

/-- Whether a recorded call failed. -/
def Event.failed (e : Event) : Prop :=
  match e.reply with
  | some r => r.failed
  | none => False

instance (e : Event) : Decidable e.failed := by
  unfold Event.failed; cases e.reply <;> infer_instance

/-- Outcome of running a program: the value returned (`none` when the function
never returned to its caller), the final state of the operating system and the
calls made, in order. -/
structure Run (σ α : Type) where
  result : Option α
  state : σ
  trace : List Event

/-- Runs a program against an operating system given as a step function: each
request is answered from the current state, `none` meaning the call does not
return. -/
def run {σ α : Type} (step : Request → σ → Option Reply × σ) : Prog α → σ → Run σ α
  | .done a, w => { result := some a, state := w, trace := [] }
  | .stop rq, w =>
      { result := none, state := (step rq w).2, trace := [{ rq := rq, reply := none }] }
  | .call rq k, w =>
      match step rq w with
      | (none, w1) => { result := none, state := w1, trace := [{ rq := rq, reply := none }] }
      | (some r, w1) =>
          let rest := run step (k r) w1
          { result := rest.result, state := rest.state,
            trace := { rq := rq, reply := some r } :: rest.trace }

/-! ## The functions of `pty.c` -/

/-- What `spawn_pty` leaves behind in the caller: the returned `int` and the
content of the cell `*master_fd_out`. -/
structure SpawnResult where
  ret : Int
  master_fd_out : Int
deriving DecidableEq, Repr

/-- The function `spawn_pty`; `master_fd_out` is the content of the caller's
cell before the call.  A reply `0` from `forkpty` is the child process. -/
def spawn_pty (master_fd_out : Int) (rows cols : Int) : Prog SpawnResult :=
  let ws : winsize :=
    { ws_row := to_unsigned_short rows, ws_col := to_unsigned_short cols,
      ws_xpixel := 0, ws_ypixel := 0 }
  .call (.forkpty ws) fun r =>
    let pid := r.ret
    let master_fd := r.out
    if pid < 0 then
      .done { ret := -r.errno, master_fd_out := master_fd_out }
    else if pid = 0 then
      .call (.setenv "TERM" "xterm-256color" 1) fun _ =>
      .call (.setenv "COLORTERM" "truecolor" 1) fun _ =>
      .call (.getenv "SHELL") fun g =>
        let shell := match g.str with
          | some s => s
          | none => "/bin/sh"
        .call (.execl shell [shell]) fun _ =>
        .stop (._exit 127)
    else
      .done { ret := pid, master_fd_out := master_fd }

/-- The function `set_nonblock`. -/
def set_nonblock (fd : Int) : Prog Int :=
  .call (.fcntl_GETFL fd) fun r =>
    let flags := r.ret
    if flags < 0 then .done (-r.errno)
    else
      .call (.fcntl_SETFL fd (or_O_NONBLOCK flags)) fun r2 =>
        if r2.ret < 0 then .done (-r2.errno) else .done 0

/-- The function `kill_process`. -/
def kill_process (pid sig : Int) : Prog Int :=
  .call (.kill pid sig) fun r =>
    if r.ret < 0 then .done (-r.errno) else .done 0

/-- The function `wait_process`. -/
def wait_process (pid : Int) : Prog Int :=
  .call (.waitpid pid WNOHANG) fun r =>
    let result := r.ret
    let status := r.out
    if result < 0 then .done (-r.errno)
    else if result = 0 then .done 0
    else if WIFEXITED status then .done (WEXITSTATUS status)
    else if WIFSIGNALED status then .done (128 + WTERMSIG status)
    else .done (-1)

/-- The function `resize_pty`. -/
def resize_pty (fd : Int) (rows cols : Int) : Prog Int :=
  let ws : winsize :=
    { ws_row := to_unsigned_short rows, ws_col := to_unsigned_short cols,
      ws_xpixel := 0, ws_ypixel := 0 }
  .call (.ioctl_TIOCSWINSZ fd ws) fun r =>
    if r.ret < 0 then .done (-r.errno) else .done 0

/-! ## A model of the kernel seen from the calling process

The process table holds the children of the caller that have not been reaped:
a child is running (`none`) or has terminated with a wait status that nobody
has collected yet (`some status`).  The descriptor table holds, for every open
descriptor, its status flags and its window size. -/

/-- An open descriptor with its status flags and window size. -/
structure FdEntry where
  fd : Int
  flags : Int
  ws : winsize
deriving DecidableEq, Repr

/-- The kernel state: unreaped children, open descriptors, and the process
identifier and descriptor the kernel hands out next. -/
structure Kernel where
  children : List (Int × Option Int)
  fds : List FdEntry
  next_pid : Int
  next_fd : Int
deriving DecidableEq, Repr

/-- The entry of an open descriptor. -/
def Kernel.fd_entry (k : Kernel) (fd : Int) : Option FdEntry :=
  k.fds.find? fun e => e.fd == fd

/-- The state of a child: `none` when `pid` is not an unreaped child. -/
def Kernel.child (k : Kernel) (pid : Int) : Option (Option Int) :=
  k.children.lookup pid

/-- A successful reply carrying a return value. -/
def Reply.ok (ret : Int) : Reply := { ret := ret, errno := 0, out := 0, str := none }

/-- A failed reply: the call returns `-1` and sets `errno`. -/
def Reply.error (errno : Int) : Reply := { ret := -1, errno := errno, out := 0, str := none }

/-- The kernel answering the calls of the parent process.  `forkpty` creates a
running child with the next free identifier and a descriptor with the given
window size; `waitpid` on a terminated child returns its status and removes it
from the table, on a running child returns 0 under `WNOHANG` and blocks
otherwise, and fails with `ECHILD` on anything else (only calls that name one
process are modelled, not the process-group forms with `pid ≤ 0`).  No byte
stream is modelled: `write` accepts all bytes and `read` reports end of
stream. -/
def kstep : Request → Kernel → Option Reply × Kernel
  | .forkpty ws, k =>
      if 0 < k.next_pid ∧ k.child k.next_pid = none then
        (some { ret := k.next_pid, errno := 0, out := k.next_fd, str := none },
         { children := (k.next_pid, none) :: k.children,
           fds := { fd := k.next_fd, flags := 2, ws := ws } :: k.fds,
           next_pid := k.next_pid + 1, next_fd := k.next_fd + 1 })
      else (some (Reply.error EAGAIN), k)
  | .waitpid pid options, k =>
      match k.child pid with
      | none => (some (Reply.error ECHILD), k)
      | some none => if options = WNOHANG then (some (Reply.ok 0), k) else (none, k)
      | some (some status) =>
          (some { ret := pid, errno := 0, out := status, str := none },
           { k with children := k.children.filter fun c => c.1 != pid })
  | .kill pid _, k =>
      match k.child pid with
      | none => (some (Reply.error ESRCH), k)
      | some _ => (some (Reply.ok 0), k)
  | .fcntl_GETFL fd, k =>
      match k.fd_entry fd with
      | none => (some (Reply.error EBADF), k)
      | some e => (some (Reply.ok e.flags), k)
  | .fcntl_SETFL fd flags, k =>
      match k.fd_entry fd with
      | none => (some (Reply.error EBADF), k)
      | some _ =>
          (some (Reply.ok 0),
           { k with fds := k.fds.map fun e => if e.fd == fd then { e with flags := flags } else e })
  | .ioctl_TIOCSWINSZ fd ws, k =>
      match k.fd_entry fd with
      | none => (some (Reply.error EBADF), k)
      | some _ =>
          (some (Reply.ok 0),
           { k with fds := k.fds.map fun e => if e.fd == fd then { e with ws := ws } else e })
  | .close fd, k =>
      match k.fd_entry fd with
      | none => (some (Reply.error EBADF), k)
      | some _ => (some (Reply.ok 0), { k with fds := k.fds.filter fun e => e.fd != fd })
  | .read fd _, k =>
      match k.fd_entry fd with
      | none => (some (Reply.error EBADF), k)
      | some _ => (some (Reply.ok 0), k)
  | .write fd _ count, k =>
      match k.fd_entry fd with
      | none => (some (Reply.error EBADF), k)
      | some _ => (some (Reply.ok count), k)
  | .setenv _ _ _, k => (some (Reply.ok 0), k)
  | .getenv _, k => (some (Reply.ok 0), k)
  | .execl _ _, k => (none, k)
  | ._exit _, k => (none, k)

/-- What the caller and the outside world can do to the kernel between two
polls: spawn a session (the kernel picking `newpid` for the child), poll or
signal a process, and a running child terminating with a wait status. -/
inductive Op where
  | spawn (master_fd_out rows cols newpid : Int)
  | wait (pid : Int)
  | kill (pid sig : Int)
  | child_terminates (pid status : Int)
deriving DecidableEq, Repr

/-- The kernel state after one operation. -/
def apply_op : Op → Kernel → Kernel
  | .spawn out rows cols newpid, k =>
      (run kstep (spawn_pty out rows cols) { k with next_pid := newpid }).state
  | .wait pid, k => (run kstep (wait_process pid) k).state
  | .kill pid sig, k => (run kstep (kill_process pid sig) k).state
  | .child_terminates pid status, k =>
      { k with children := k.children.map fun c =>
          if c.1 == pid ∧ c.2 = none then (c.1, some status) else c }

/-- The kernel state after a sequence of operations. -/
def apply_ops (ops : List Op) (k : Kernel) : Kernel :=
  ops.foldl (fun s op => apply_op op s) k

/-- An operation hands the identifier `pid` to a new child. -/
def Op.recycles (pid : Int) : Op → Prop
  | .spawn _ _ _ newpid => newpid = pid
  | _ => False

/-! ## A model of the child process

After `forkpty` returns 0 the code runs in the child, whose relevant state is
its environment.  The C library calls `setenv` and `getenv` act on it; `execl`
replaces the process image when the program can be executed. -/

/-- The environment: name/value pairs, the first entry of a name counting. -/
abbrev Env := List (String × String)

/-- The C library's `getenv`. -/
def getenv (env : Env) (name : String) : Option String := env.lookup name

/-- The C library's `setenv(name, value, overwrite)` when it succeeds. -/
def setenv (env : Env) (name value : String) (overwrite : Int) : Env :=
  match env.lookup name with
  | none => env ++ [(name, value)]
  | some _ =>
      if overwrite = 0 then env
      else env.map fun p => if p.1 == name then (name, value) else p

/-- The child process: its environment, the program image it was replaced with
(path and argument vector) and the code it exited with. -/
structure Child where
  env : Env
  image : Option (String × List String)
  exit_code : Option Int
deriving DecidableEq, Repr

/-- The operating system answering the calls of the child; `can_exec` tells
which paths name an executable program. -/
def cstep (can_exec : String → Bool) : Request → Child → Option Reply × Child
  | .forkpty _, c => (some (Reply.ok 0), c)
  | .setenv name value overwrite, c =>
      (some (Reply.ok 0), { c with env := setenv c.env name value overwrite })
  | .getenv name, c =>
      (some { ret := 0, errno := 0, out := 0, str := getenv c.env name }, c)
  | .execl path argv, c =>
      if can_exec path then (none, { c with image := some (path, argv) })
      else (some (Reply.error ENOENT), c)
  | ._exit code, c => (none, { c with exit_code := some code })
  | _, c => (some (Reply.error EBADF), c)

/-- A freshly forked child with the inherited environment. -/
def Child.fresh (env : Env) : Child := { env := env, image := none, exit_code := none }

/-! ## Concrete operating systems used to evaluate the programs -/

/-- A kernel with no child and no open descriptor. -/
def kernel_empty : Kernel := { children := [], fds := [], next_pid := 5, next_fd := 3 }

/-- A kernel whose only child, process 7, has terminated with the given wait
status and has not been reaped. -/
def kernel_terminated (status : Int) : Kernel :=
  { children := [(7, some status)], fds := [], next_pid := 8, next_fd := 3 }

/-- A kernel with one live session: child 5 running on descriptor 3, whose
window is 24 rows by 80 columns. -/
def kernel_session : Kernel :=
  { children := [(5, none)],
    fds := [{ fd := 3, flags := 2,
              ws := { ws_row := 24, ws_col := 80, ws_xpixel := 0, ws_ypixel := 0 } }],
    next_pid := 6, next_fd := 4 }

/-- A kernel whose only child, process 7, is running. -/
def kernel_running : Kernel :=
  { children := [(7, none)], fds := [], next_pid := 8, next_fd := 3 }

/-! ## Lemmas on runs -/

theorem run_call_some {σ α : Type} {step : Request → σ → Option Reply × σ} {rq : Request}
    {w w1 : σ} {r : Reply} (k : Reply → Prog α) (h : step rq w = (some r, w1)) :
    run step (.call rq k) w =
      { result := (run step (k r) w1).result, state := (run step (k r) w1).state,
        trace := { rq := rq, reply := some r } :: (run step (k r) w1).trace } := by
  simp [run, h]

theorem run_call_none {σ α : Type} {step : Request → σ → Option Reply × σ} {rq : Request}
    {w w1 : σ} (k : Reply → Prog α) (h : step rq w = (none, w1)) :
    run step (.call rq k) w =
      { result := none, state := w1, trace := [{ rq := rq, reply := none }] } := by
  simp [run, h]

theorem run_done {σ α : Type} (step : Request → σ → Option Reply × σ) (a : α) (w : σ) :
    run step (.done a) w = { result := some a, state := w, trace := [] } := rfl

/-! ## Lemmas on the wait-status macros -/

theorem WEXITSTATUS_range (status : Int) :
    0 ≤ WEXITSTATUS status ∧ WEXITSTATUS status ≤ 255 := by
  unfold WEXITSTATUS; omega

theorem WTERMSIG_of_WIFSIGNALED {status : Int} (h : WIFSIGNALED status = true) :
    1 ≤ WTERMSIG status ∧ WTERMSIG status ≤ 126 := by
  unfold WIFSIGNALED to_signed_char at h
  unfold WTERMSIG
  simp only [decide_eq_true_eq] at h
  omega

theorem WIFEXITED_iff (status : Int) : WIFEXITED status = true ↔ WTERMSIG status = 0 := by
  unfold WIFEXITED; simp

theorem not_WIFEXITED_of_WIFSIGNALED {status : Int} (h : WIFSIGNALED status = true) :
    WIFEXITED status = false := by
  have h1 := WTERMSIG_of_WIFSIGNALED h
  cases hx : WIFEXITED status
  · rfl
  · have := (WIFEXITED_iff status).1 hx; omega

/-- What `wait_process` returns for a reply of `waitpid`. -/
theorem wait_process_result {σ : Type} {step : Request → σ → Option Reply × σ} {w w1 : σ}
    {pid : Int} {r : Reply} (h : step (.waitpid pid WNOHANG) w = (some r, w1)) :
    run step (wait_process pid) w =
      { result := some
          (if r.ret < 0 then -r.errno
           else if r.ret = 0 then 0
           else if WIFEXITED r.out then WEXITSTATUS r.out
           else if WIFSIGNALED r.out then 128 + WTERMSIG r.out
           else -1),
        state := w1,
        trace := [{ rq := .waitpid pid WNOHANG, reply := some r }] } := by
  unfold wait_process
  rw [run_call_some _ h]
  by_cases h1 : r.ret < 0
  · simp [h1, run_done]
  · by_cases h2 : r.ret = 0
    · simp [h2, run_done]
    · cases h3 : WIFEXITED r.out
      · cases h4 : WIFSIGNALED r.out <;> simp [h1, h2, h3, h4, run_done]
      · simp [h1, h2, h3, run_done]

/-! ## Lemmas on the geometry calls -/

theorem to_unsigned_short_of_range {x : Int} (h0 : 0 ≤ x) (h1 : x ≤ 65535) :
    to_unsigned_short x = x := by
  unfold to_unsigned_short; omega

theorem resize_pty_requests {σ : Type} (step : Request → σ → Option Reply × σ) (w : σ)
    (fd rows cols : Int) :
    (run step (resize_pty fd rows cols) w).trace.map Event.rq =
      [.ioctl_TIOCSWINSZ fd { ws_row := to_unsigned_short rows, ws_col := to_unsigned_short cols,
                              ws_xpixel := 0, ws_ypixel := 0 }] := by
  unfold resize_pty
  simp only []
  rcases hs : step (.ioctl_TIOCSWINSZ fd
      ⟨to_unsigned_short rows, to_unsigned_short cols, 0, 0⟩) w with ⟨o, w1⟩
  cases o with
  | none => rw [run_call_none _ hs]; rfl
  | some r =>
      rw [run_call_some _ hs]
      by_cases h1 : r.ret < 0 <;> simp [h1, run_done]

theorem resize_pty_result {σ : Type} {step : Request → σ → Option Reply × σ} {w w1 : σ}
    {fd rows cols : Int} {r : Reply}
    (h : step (.ioctl_TIOCSWINSZ fd
      ⟨to_unsigned_short rows, to_unsigned_short cols, 0, 0⟩) w = (some r, w1)) :
    (run step (resize_pty fd rows cols) w).result = some (if r.ret < 0 then -r.errno else 0) := by
  unfold resize_pty
  simp only []
  rw [run_call_some _ h]
  by_cases h1 : r.ret < 0 <;> simp [h1, run_done]

theorem spawn_pty_first_request {σ : Type} (step : Request → σ → Option Reply × σ) (w : σ)
    (master_fd_out rows cols : Int) :
    ((run step (spawn_pty master_fd_out rows cols) w).trace.head?).map Event.rq =
      some (.forkpty { ws_row := to_unsigned_short rows, ws_col := to_unsigned_short cols,
                       ws_xpixel := 0, ws_ypixel := 0 }) := by
  unfold spawn_pty
  simp only []
  rcases hs : step (.forkpty
      ⟨to_unsigned_short rows, to_unsigned_short cols, 0, 0⟩) w with ⟨o, w1⟩
  cases o with
  | none => rw [run_call_none _ hs]; rfl
  | some r => rw [run_call_some _ hs]; rfl

/-! ## Lemmas on `set_nonblock` -/

theorem or_O_NONBLOCK_idem (flags : Int) :
    or_O_NONBLOCK (or_O_NONBLOCK flags) = or_O_NONBLOCK flags := by
  unfold or_O_NONBLOCK
  simp [Nat.or_assoc]

theorem or_O_NONBLOCK_nonneg (flags : Int) : 0 ≤ or_O_NONBLOCK flags := by
  unfold or_O_NONBLOCK
  exact Int.ofNat_nonneg _

theorem set_nonblock_run_failed {σ : Type} {step : Request → σ → Option Reply × σ} {w w1 : σ}
    {fd : Int} {g : Reply} (hg : step (.fcntl_GETFL fd) w = (some g, w1)) (h : g.ret < 0) :
    run step (set_nonblock fd) w =
      { result := some (-g.errno), state := w1,
        trace := [{ rq := .fcntl_GETFL fd, reply := some g }] } := by
  unfold set_nonblock
  rw [run_call_some _ hg]
  simp [h, run_done]

theorem set_nonblock_run_ok {σ : Type} {step : Request → σ → Option Reply × σ} {w w1 w2 : σ}
    {fd : Int} {g s : Reply} (hg : step (.fcntl_GETFL fd) w = (some g, w1)) (h : 0 ≤ g.ret)
    (hs : step (.fcntl_SETFL fd (or_O_NONBLOCK g.ret)) w1 = (some s, w2)) :
    run step (set_nonblock fd) w =
      { result := some (if s.ret < 0 then -s.errno else 0), state := w2,
        trace := [{ rq := .fcntl_GETFL fd, reply := some g },
                  { rq := .fcntl_SETFL fd (or_O_NONBLOCK g.ret), reply := some s }] } := by
  have n1 : ¬ g.ret < 0 := by omega
  unfold set_nonblock
  rw [run_call_some _ hg]
  simp only [n1, if_false]
  rw [run_call_some _ hs]
  by_cases h2 : s.ret < 0 <;> simp [h2, run_done]

theorem set_nonblock_requests {σ : Type} {step : Request → σ → Option Reply × σ} {w w1 : σ}
    {fd : Int} {g : Reply} (hg : step (.fcntl_GETFL fd) w = (some g, w1)) (h : 0 ≤ g.ret) :
    (run step (set_nonblock fd) w).trace.map Event.rq =
      [.fcntl_GETFL fd, .fcntl_SETFL fd (or_O_NONBLOCK g.ret)] := by
  rcases hs : step (.fcntl_SETFL fd (or_O_NONBLOCK g.ret)) w1 with ⟨o, w2⟩
  cases o with
  | none =>
      have n1 : ¬ g.ret < 0 := by omega
      unfold set_nonblock
      rw [run_call_some _ hg]
      simp only [n1, if_false]
      rw [run_call_none _ hs]
      rfl
  | some s => rw [set_nonblock_run_ok hg h hs]; rfl

theorem find_fd_map (l : List FdEntry) (fd : Int) (g : FdEntry → FdEntry)
    (hg : ∀ e, (g e).fd = e.fd) :
    (l.map fun e => if e.fd == fd then g e else e).find? (fun e => e.fd == fd) =
      (l.find? fun e => e.fd == fd).map g := by
  induction l with
  | nil => rfl
  | cons a t ih =>
      by_cases h : a.fd = fd
      · have hb : (a.fd == fd) = true := by simp [h]
        have hb2 : ((g a).fd == fd) = true := by simp [hg, h]
        simp only [List.map_cons, hb, if_true, List.find?_cons, hb2, Option.map_some']
      · have hb : (a.fd == fd) = false := by simp [h]
        simp only [List.map_cons, hb, List.find?_cons, Bool.false_eq_true, if_false]
        exact ih

theorem kstep_GETFL {k : Kernel} {fd : Int} {e : FdEntry} (h : k.fd_entry fd = some e) :
    kstep (.fcntl_GETFL fd) k = (some (Reply.ok e.flags), k) := by
  simp [kstep, h]

theorem kstep_SETFL {k : Kernel} {fd : Int} {e : FdEntry} (flags : Int)
    (h : k.fd_entry fd = some e) :
    kstep (.fcntl_SETFL fd flags) k =
      (some (Reply.ok 0),
       { k with fds := k.fds.map fun e => if e.fd == fd then { e with flags := flags } else e }) := by
  simp [kstep, h]

theorem fd_entry_after_SETFL {k : Kernel} {fd : Int} {e : FdEntry} (flags : Int)
    (h : k.fd_entry fd = some e) :
    Kernel.fd_entry
      { k with fds := k.fds.map fun e => if e.fd == fd then { e with flags := flags } else e } fd
      = some { e with flags := flags } := by
  unfold Kernel.fd_entry at h ⊢
  simp only []
  rw [find_fd_map k.fds fd (fun e => { e with flags := flags }) (fun _ => rfl), h]
  rfl

/-! ## Lemmas on the environment -/

theorem lookup_replace_self (l : Env) (n v : String) (h : (l.lookup n).isSome = true) :
    (l.map fun p => if p.1 == n then (n, v) else p).lookup n = some v := by
  induction l with
  | nil => simp at h
  | cons p t ih =>
      obtain ⟨a, b⟩ := p
      by_cases hp : a = n
      · subst hp; simp
      · have hb : (n == a) = false := by simp [Ne.symm hp]
        have hb2 : (a == n) = false := by simp [hp]
        rw [List.lookup_cons, hb] at h
        simp only [List.map_cons, hb2, Bool.false_eq_true, if_false, List.lookup_cons, hb]
        exact ih h

theorem lookup_replace_other (l : Env) (n v m : String) (h : m ≠ n) :
    (l.map fun p => if p.1 == n then (n, v) else p).lookup m = l.lookup m := by
  induction l with
  | nil => rfl
  | cons p t ih =>
      obtain ⟨a, b⟩ := p
      by_cases hp : a = n
      · subst hp
        have hb : (m == a) = false := by simp [h]
        simp only [List.map_cons, beq_self_eq_true, if_true, List.lookup_cons, hb]
        exact ih
      · have hb2 : (a == n) = false := by simp [hp]
        simp only [List.map_cons, hb2, Bool.false_eq_true, if_false, List.lookup_cons]
        rw [ih]

theorem getenv_setenv_self (env : Env) (n v : String) (overwrite : Int) (h : overwrite ≠ 0) :
    getenv (setenv env n v overwrite) n = some v := by
  unfold getenv setenv
  cases hl : env.lookup n with
  | none => simp [List.lookup_append, hl]
  | some x =>
      simp only [h, if_false]
      exact lookup_replace_self env n v (by simp [hl])

theorem getenv_setenv_other (env : Env) (n v m : String) (overwrite : Int) (h : m ≠ n) :
    getenv (setenv env n v overwrite) m = getenv env m := by
  unfold getenv setenv
  cases hl : env.lookup n with
  | none =>
      have hb : (m == n) = false := by simp [h]
      simp [List.lookup_append, List.lookup_cons, hb]
  | some x =>
      by_cases ho : overwrite = 0
      · simp [ho]
      · simp only [ho, if_false]
        exact lookup_replace_other env n v m h

/-- The whole run of the child branch of `spawn_pty`. -/
theorem spawn_pty_child_run (can_exec : String → Bool) (env : Env)
    (master_fd_out rows cols : Int) :
    run (cstep can_exec) (spawn_pty master_fd_out rows cols) (Child.fresh env) =
      { result := none,
        state :=
          { env := setenv (setenv env "TERM" "xterm-256color" 1) "COLORTERM" "truecolor" 1,
            image :=
              if can_exec ((getenv env "SHELL").getD "/bin/sh") = true then
                some ((getenv env "SHELL").getD "/bin/sh", [(getenv env "SHELL").getD "/bin/sh"])
              else none,
            exit_code :=
              if can_exec ((getenv env "SHELL").getD "/bin/sh") = true then none else some 127 },
        trace :=
          [{ rq := .forkpty ⟨to_unsigned_short rows, to_unsigned_short cols, 0, 0⟩,
             reply := some (Reply.ok 0) },
           { rq := .setenv "TERM" "xterm-256color" 1, reply := some (Reply.ok 0) },
           { rq := .setenv "COLORTERM" "truecolor" 1, reply := some (Reply.ok 0) },
           { rq := .getenv "SHELL",
             reply := some { ret := 0, errno := 0, out := 0, str := getenv env "SHELL" } }] ++
          (if can_exec ((getenv env "SHELL").getD "/bin/sh") = true then
            [{ rq := .execl ((getenv env "SHELL").getD "/bin/sh")
                       [(getenv env "SHELL").getD "/bin/sh"],
               reply := none }]
           else
            [{ rq := .execl ((getenv env "SHELL").getD "/bin/sh")
                       [(getenv env "SHELL").getD "/bin/sh"],
               reply := some (Reply.error ENOENT) },
             { rq := ._exit 127, reply := none }]) } := by
  have e1 : getenv (setenv (setenv env "TERM" "xterm-256color" 1) "COLORTERM" "truecolor" 1)
      "SHELL" = getenv env "SHELL" := by
    rw [getenv_setenv_other _ _ _ _ _ (by decide), getenv_setenv_other _ _ _ _ _ (by decide)]
  cases hs : getenv env "SHELL" with
  | none =>
      rw [hs] at e1
      cases hc : can_exec "/bin/sh" <;>
        simp [spawn_pty, run, cstep, Reply.ok, Reply.error, Child.fresh, e1, hc]
  | some sh =>
      rw [hs] at e1
      cases hc : can_exec sh <;>
        simp [spawn_pty, run, cstep, Reply.ok, Reply.error, Child.fresh, e1, hc]

/-! ## Lemmas on the error convention -/

theorem spawn_pty_run_failed {σ : Type} {step : Request → σ → Option Reply × σ} {w w1 : σ}
    {master_fd_out rows cols : Int} {r : Reply}
    (h : step (.forkpty ⟨to_unsigned_short rows, to_unsigned_short cols, 0, 0⟩) w = (some r, w1))
    (h1 : r.ret < 0) :
    run step (spawn_pty master_fd_out rows cols) w =
      { result := some { ret := -r.errno, master_fd_out := master_fd_out }, state := w1,
        trace := [{ rq := .forkpty ⟨to_unsigned_short rows, to_unsigned_short cols, 0, 0⟩,
                    reply := some r }] } := by
  unfold spawn_pty
  simp only []
  rw [run_call_some _ h]
  simp [h1, run_done]

theorem spawn_pty_run_parent {σ : Type} {step : Request → σ → Option Reply × σ} {w w1 : σ}
    {master_fd_out rows cols : Int} {r : Reply}
    (h : step (.forkpty ⟨to_unsigned_short rows, to_unsigned_short cols, 0, 0⟩) w = (some r, w1))
    (h1 : 0 < r.ret) :
    run step (spawn_pty master_fd_out rows cols) w =
      { result := some { ret := r.ret, master_fd_out := r.out }, state := w1,
        trace := [{ rq := .forkpty ⟨to_unsigned_short rows, to_unsigned_short cols, 0, 0⟩,
                    reply := some r }] } := by
  have n1 : ¬ r.ret < 0 := by omega
  have n2 : ¬ r.ret = 0 := by omega
  unfold spawn_pty
  simp only []
  rw [run_call_some _ h]
  simp [n1, n2, run_done]

theorem lookup_filter_none (l : List (Int × Option Int)) (pid : Int)
    (f : Int × Option Int → Bool) (h : l.lookup pid = none) :
    (l.filter f).lookup pid = none := by
  rw [List.lookup_eq_none_iff] at h ⊢
  intro p hp
  exact h p (List.mem_filter.1 hp).1

theorem lookup_filter_self (l : List (Int × Option Int)) (pid : Int) :
    (l.filter fun c => c.1 != pid).lookup pid = none := by
  rw [List.lookup_eq_none_iff]
  intro p hp
  have h := (List.mem_filter.1 hp).2
  simp only [bne_iff_ne, ne_eq] at h ⊢
  exact fun e => h e.symm

theorem lookup_map_keys_none (l : List (Int × Option Int)) (pid : Int)
    (f : Int × Option Int → Int × Option Int) (hf : ∀ c, (f c).1 = c.1)
    (h : l.lookup pid = none) : (l.map f).lookup pid = none := by
  rw [List.lookup_eq_none_iff] at h ⊢
  intro p hp
  obtain ⟨c, hc, rfl⟩ := List.mem_map.1 hp
  rw [hf c]
  exact h c hc

theorem kstep_waitpid_terminated {k : Kernel} {pid status : Int} (options : Int)
    (h : k.child pid = some (some status)) :
    kstep (.waitpid pid options) k =
      (some { ret := pid, errno := 0, out := status, str := none },
       { k with children := k.children.filter fun c => c.1 != pid }) := by
  simp [kstep, h]

theorem kstep_waitpid_absent {k : Kernel} {pid : Int} (options : Int)
    (h : k.child pid = none) :
    kstep (.waitpid pid options) k = (some (Reply.error ECHILD), k) := by
  simp [kstep, h]

/-- Polling a process that is not an unreaped child fails with `ECHILD`. -/
theorem wait_process_absent {k : Kernel} {pid : Int} (h : k.child pid = none) :
    (run kstep (wait_process pid) k).result = some (-ECHILD) := by
  rw [wait_process_result (kstep_waitpid_absent WNOHANG h)]
  simp [Reply.error]

theorem wait_process_keeps_absent {k : Kernel} {pid : Int} (q : Int)
    (h : k.child pid = none) : (run kstep (wait_process q) k).state.child pid = none := by
  cases hq : k.child q with
  | none => rw [wait_process_result (kstep_waitpid_absent WNOHANG hq)]; exact h
  | some st =>
      cases st with
      | none =>
          have hs : kstep (.waitpid q WNOHANG) k = (some (Reply.ok 0), k) := by
            simp [kstep, hq]
          rw [wait_process_result hs]; exact h
      | some status =>
          rw [wait_process_result (kstep_waitpid_terminated WNOHANG hq)]
          exact lookup_filter_none _ _ _ h

theorem kill_process_keeps_state (k : Kernel) (pid sig : Int) :
    (run kstep (kill_process pid sig) k).state = k := by
  unfold kill_process
  cases hq : k.child pid with
  | none =>
      have hs : kstep (.kill pid sig) k = (some (Reply.error ESRCH), k) := by simp [kstep, hq]
      rw [run_call_some _ hs]
      simp [Reply.error, run_done]
  | some st =>
      have hs : kstep (.kill pid sig) k = (some (Reply.ok 0), k) := by simp [kstep, hq]
      rw [run_call_some _ hs]
      simp [Reply.ok, run_done]

theorem spawn_pty_keeps_absent {k : Kernel} {pid : Int} (master_fd_out rows cols newpid : Int)
    (hne : newpid ≠ pid) (h : k.child pid = none) :
    (run kstep (spawn_pty master_fd_out rows cols) { k with next_pid := newpid }).state.child pid
      = none := by
  by_cases hc : 0 < newpid ∧ Kernel.child { k with next_pid := newpid } newpid = none
  · have hs : kstep (.forkpty ⟨to_unsigned_short rows, to_unsigned_short cols, 0, 0⟩)
        { k with next_pid := newpid } =
        (some { ret := newpid, errno := 0, out := k.next_fd, str := none },
         { children := (newpid, none) :: k.children,
           fds := { fd := k.next_fd, flags := 2,
                    ws := ⟨to_unsigned_short rows, to_unsigned_short cols, 0, 0⟩ } :: k.fds,
           next_pid := newpid + 1, next_fd := k.next_fd + 1 }) := by
      simp [kstep, hc]
    rw [spawn_pty_run_parent hs hc.1]
    have hb : (pid == newpid) = false := by simp [Ne.symm hne]
    show List.lookup pid ((newpid, none) :: k.children) = none
    rw [List.lookup_cons, hb]
    exact h
  · have hs : kstep (.forkpty ⟨to_unsigned_short rows, to_unsigned_short cols, 0, 0⟩)
        { k with next_pid := newpid } = (some (Reply.error EAGAIN), { k with next_pid := newpid }) := by
      simp [kstep, hc]
    rw [spawn_pty_run_failed hs (by decide)]
    exact h

theorem apply_op_keeps_absent {k : Kernel} {pid : Int} (op : Op) (hop : ¬ op.recycles pid)
    (h : k.child pid = none) : (apply_op op k).child pid = none := by
  cases op with
  | spawn master_fd_out rows cols newpid =>
      exact spawn_pty_keeps_absent master_fd_out rows cols newpid hop h
  | wait q => exact wait_process_keeps_absent q h
  | kill q sig =>
      show (run kstep (kill_process q sig) k).state.child pid = none
      rw [kill_process_keeps_state]; exact h
  | child_terminates q status =>
      exact lookup_map_keys_none _ _ _ (fun c => by split <;> rfl) h

theorem apply_ops_keeps_absent {pid : Int} (ops : List Op) :
    ∀ k : Kernel, (∀ op ∈ ops, ¬ op.recycles pid) → k.child pid = none →
      (apply_ops ops k).child pid = none := by
  induction ops with
  | nil => intro k _ h; exact h
  | cons op t ih =>
      intro k hno h
      show (apply_ops t (apply_op op k)).child pid = none
      exact ih _ (fun o ho => hno o (List.mem_cons_of_mem _ ho))
        (apply_op_keeps_absent op (hno op (List.mem_cons_self _ _)) h)

/-! ## Lemmas on returning -/

/-- C3: `wait_process` decodes the outcome of `waitpid` as documented: a failed
`waitpid` with error number `e` gives `-e`; a return of 0 gives 0; a status of a
normal exit with code `c` gives `c`, with `0 ≤ c ≤ 255`; a status of a death by
signal `s` gives `128 + s`, with `1 ≤ s ≤ 127` and the result in 129..255; a
child killed by signal 9 gives 137. -/
theorem wait_process_decodes {σ : Type} (step : Request → σ → Option Reply × σ) (w w1 : σ)
    (pid : Int) (r : Reply) (h : step (.waitpid pid WNOHANG) w = (some r, w1)) :
    (r.ret < 0 → (run step (wait_process pid) w).result = some (-r.errno)) ∧
    (r.ret = 0 → (run step (wait_process pid) w).result = some 0) ∧
    (∀ c, 0 < r.ret → WIFEXITED r.out = true → WEXITSTATUS r.out = c →
      (run step (wait_process pid) w).result = some c ∧ 0 ≤ c ∧ c ≤ 255) ∧
    (∀ s, 0 < r.ret → WIFSIGNALED r.out = true → WTERMSIG r.out = s →
      (1 ≤ s ∧ s ≤ 127) ∧ (run step (wait_process pid) w).result = some (128 + s) ∧
      129 ≤ 128 + s ∧ 128 + s ≤ 255) ∧
    (0 < r.ret → r.out = 9 → (run step (wait_process pid) w).result = some 137) := by
  rw [wait_process_result h]
  refine ⟨?_, ?_, ?_, ?_, ?_⟩
  · intro h1; simp [h1]
  · intro h1; simp [h1]
  · intro c h1 h2 h3
    have hr := WEXITSTATUS_range r.out
    have n1 : ¬ r.ret < 0 := by omega
    have n2 : ¬ r.ret = 0 := by omega
    subst h3
    simp [n1, n2, h2, hr.1, hr.2]
  · intro s h1 h2 h3
    have hs := WTERMSIG_of_WIFSIGNALED h2
    have hx := not_WIFEXITED_of_WIFSIGNALED h2
    have n1 : ¬ r.ret < 0 := by omega
    have n2 : ¬ r.ret = 0 := by omega
    subst h3
    simp [n1, n2, h2, hx]
    omega
  · intro h1 h2
    have n1 : ¬ r.ret < 0 := by omega
    have n2 : ¬ r.ret = 0 := by omega
    simp [n1, n2, h2, WIFEXITED, WIFSIGNALED, WTERMSIG, to_signed_char]

/-- Witness of C3: process 7 was killed by signal 9 and `wait_process 7` returns 137. -/
theorem wait_process_decodes_witness :
    kstep (.waitpid 7 WNOHANG) (kernel_terminated 9) =
        (some { ret := 7, errno := 0, out := 9, str := none },
         { children := [], fds := [], next_pid := 8, next_fd := 3 }) ∧
      (run kstep (wait_process 7) (kernel_terminated 9)).result = some 137 :=
  ⟨by rfl,
   (wait_process_decodes kstep (kernel_terminated 9) _ 7 _ (by rfl)).2.2.2.2
     (by decide) (by rfl)⟩

/-- C1: evaluation at the failing input.  Process 7 has terminated with exit code
0 (wait status 0): `waitpid` reports the state change by returning 7, yet
`wait_process 7` returns 0, the very value it returns for a child that is still
running. -/
theorem wait_process_exit_zero_reads_as_running :
    kstep (.waitpid 7 WNOHANG) (kernel_terminated 0) =
        (some { ret := 7, errno := 0, out := 0, str := none },
         { children := [], fds := [], next_pid := 8, next_fd := 3 }) ∧
      WIFEXITED 0 = true ∧ WEXITSTATUS 0 = 0 ∧
      (run kstep (wait_process 7) (kernel_terminated 0)).result = some 0 ∧
      (run kstep (wait_process 7) kernel_running).result = some 0 := by
  refine ⟨by rfl, by decide, by decide, by rfl, by rfl⟩

/-- C2, counterexample: a child that exited normally with code 137 (wait status
`137 * 256`) and a child killed by signal 9 (wait status 9) make `wait_process`
return the same integer, 137. -/
theorem wait_process_signal_not_distinguishable :
    WIFEXITED 35072 = true ∧ WEXITSTATUS 35072 = 137 ∧
      WIFSIGNALED 9 = true ∧ WTERMSIG 9 = 9 ∧
      (run kstep (wait_process 7) (kernel_terminated 35072)).result =
        (run kstep (wait_process 7) (kernel_terminated 9)).result := by
  refine ⟨by decide, by decide, by decide, by decide, by rfl⟩

/-- C2, amended: for a wait status of a normal exit with code `c` and a wait
status of a death by signal `s`, the two results of `wait_process` are `c` and
`128 + s`; they differ exactly when `c ≠ 128 + s`, in particular whenever
`c ≤ 128`. -/
theorem wait_process_signal_vs_exit {σ τ : Type}
    (step : Request → σ → Option Reply × σ) (step2 : Request → τ → Option Reply × τ)
    (w w1 : σ) (v v1 : τ) (pid pid2 c s : Int) (re rs : Reply)
    (he : step (.waitpid pid WNOHANG) w = (some re, w1))
    (hs : step2 (.waitpid pid2 WNOHANG) v = (some rs, v1))
    (hre : 0 < re.ret) (hrs : 0 < rs.ret)
    (hexit : WIFEXITED re.out = true) (hc : WEXITSTATUS re.out = c)
    (hsig : WIFSIGNALED rs.out = true) (hsg : WTERMSIG rs.out = s) :
    (run step (wait_process pid) w).result = some c ∧
    (run step2 (wait_process pid2) v).result = some (128 + s) ∧
    ((run step (wait_process pid) w).result ≠ (run step2 (wait_process pid2) v).result ↔
      c ≠ 128 + s) ∧
    (c ≤ 128 →
      (run step (wait_process pid) w).result ≠ (run step2 (wait_process pid2) v).result) := by
  have hsr := WTERMSIG_of_WIFSIGNALED hsig
  have hx := not_WIFEXITED_of_WIFSIGNALED hsig
  have e1 : (run step (wait_process pid) w).result = some c := by
    rw [wait_process_result he]
    have n1 : ¬ re.ret < 0 := by omega
    have n2 : ¬ re.ret = 0 := by omega
    simp [n1, n2, hexit, hc]
  have e2 : (run step2 (wait_process pid2) v).result = some (128 + s) := by
    rw [wait_process_result hs]
    have n1 : ¬ rs.ret < 0 := by omega
    have n2 : ¬ rs.ret = 0 := by omega
    simp [n1, n2, hsig, hx, hsg]
  refine ⟨e1, e2, ?_, ?_⟩
  · rw [e1, e2]; simp
  · intro hle
    rw [e1, e2]
    simp only [ne_eq, Option.some.injEq]
    omega

/-- Witness of the amended C2: exit code 3 against signal 9 gives 3 and 137. -/
theorem wait_process_signal_vs_exit_witness :
    (run kstep (wait_process 7) (kernel_terminated 768)).result = some 3 ∧
      (run kstep (wait_process 7) (kernel_terminated 9)).result = some (128 + 9) ∧
      (run kstep (wait_process 7) (kernel_terminated 768)).result ≠
        (run kstep (wait_process 7) (kernel_terminated 9)).result :=
  have h := wait_process_signal_vs_exit kstep kstep (kernel_terminated 768) _
    (kernel_terminated 9) _ 7 7 3 9 _ _ (by rfl) (by rfl) (by decide) (by decide)
    (by decide) (by decide) (by decide) (by decide)
  ⟨h.1, h.2.1, h.2.2.2 (by decide)⟩

/-- C5: outcomes of `spawn_pty` in the calling process.  When `forkpty` fails
with error number `e` the function returns `-e`, leaves `*master_fd_out` as it
was and makes no other call; when `forkpty` returns a child identifier `p > 0`
and stores the descriptor `m`, the function returns `p` and stores `m` in
`*master_fd_out`. -/
theorem spawn_pty_parent_outcomes {σ : Type} (step : Request → σ → Option Reply × σ)
    (w w1 : σ) (master_fd_out rows cols : Int) (r : Reply)
    (h : step (.forkpty { ws_row := to_unsigned_short rows, ws_col := to_unsigned_short cols,
                          ws_xpixel := 0, ws_ypixel := 0 }) w = (some r, w1)) :
    (r.ret < 0 →
      run step (spawn_pty master_fd_out rows cols) w =
        { result := some { ret := -r.errno, master_fd_out := master_fd_out },
          state := w1,
          trace := [{ rq := .forkpty { ws_row := to_unsigned_short rows,
                                       ws_col := to_unsigned_short cols,
                                       ws_xpixel := 0, ws_ypixel := 0 },
                      reply := some r }] }) ∧
    (0 < r.ret →
      run step (spawn_pty master_fd_out rows cols) w =
        { result := some { ret := r.ret, master_fd_out := r.out },
          state := w1,
          trace := [{ rq := .forkpty { ws_row := to_unsigned_short rows,
                                       ws_col := to_unsigned_short cols,
                                       ws_xpixel := 0, ws_ypixel := 0 },
                      reply := some r }] }) := by
  constructor
  · intro h1
    unfold spawn_pty
    simp only []
    rw [run_call_some _ h]
    simp [h1, run_done]
  · intro h1
    have n1 : ¬ r.ret < 0 := by omega
    have n2 : ¬ r.ret = 0 := by omega
    unfold spawn_pty
    simp only []
    rw [run_call_some _ h]
    simp [n1, n2, run_done]

/-- Witness of C5: on a kernel without free process identifier `forkpty` fails
with `EAGAIN` and the cell keeps its content 42; on a fresh kernel the child is
process 5 on descriptor 3. -/
theorem spawn_pty_parent_outcomes_witness :
    (run kstep (spawn_pty 42 24 80) { kernel_empty with next_pid := 0 }).result =
        some { ret := -EAGAIN, master_fd_out := 42 } ∧
      (run kstep (spawn_pty 42 24 80) kernel_empty).result =
        some { ret := 5, master_fd_out := 3 } :=
  ⟨congrArg Run.result
      ((spawn_pty_parent_outcomes kstep { kernel_empty with next_pid := 0 } _ 42 24 80
        (Reply.error EAGAIN) (by rfl)).1 (by decide)),
   congrArg Run.result
      ((spawn_pty_parent_outcomes kstep kernel_empty _ 42 24 80
        { ret := 5, errno := 0, out := 3, str := none } (by rfl)).2 (by decide))⟩

/-- C7: geometry is applied exactly.  For rows `r` and columns `c` between 0 and
65535, the only call of `resize_pty fd r c` is the `TIOCSWINSZ` request with the
window size `(r, c, 0, 0)`, the function returns 0 when that request succeeds,
and the first call of `spawn_pty _ r c` is `forkpty` with the same window
size. -/
theorem geometry_applied_exactly {σ : Type} (step : Request → σ → Option Reply × σ) (w : σ)
    (fd master_fd_out r c : Int) (hr0 : 0 ≤ r) (hr1 : r ≤ 65535) (hc0 : 0 ≤ c)
    (hc1 : c ≤ 65535) :
    (run step (resize_pty fd r c) w).trace.map Event.rq =
      [.ioctl_TIOCSWINSZ fd { ws_row := r, ws_col := c, ws_xpixel := 0, ws_ypixel := 0 }] ∧
    (∀ rep w1,
      step (.ioctl_TIOCSWINSZ fd { ws_row := r, ws_col := c, ws_xpixel := 0, ws_ypixel := 0 }) w
        = (some rep, w1) →
      0 ≤ rep.ret → (run step (resize_pty fd r c) w).result = some 0) ∧
    ((run step (spawn_pty master_fd_out r c) w).trace.head?).map Event.rq =
      some (.forkpty { ws_row := r, ws_col := c, ws_xpixel := 0, ws_ypixel := 0 }) := by
  have er := to_unsigned_short_of_range hr0 hr1
  have ec := to_unsigned_short_of_range hc0 hc1
  refine ⟨?_, ?_, ?_⟩
  · have h := resize_pty_requests step w fd r c
    rw [er, ec] at h
    exact h
  · intro rep w1 h hrep
    rw [← er, ← ec] at h
    rw [resize_pty_result h]
    have n1 : ¬ rep.ret < 0 := by omega
    simp [n1]
  · have h := spawn_pty_first_request step w master_fd_out r c
    rw [er, ec] at h
    exact h

/-- Witness of C7: resizing the live session to 40 by 120 asks for exactly that
window and returns 0. -/
theorem geometry_applied_exactly_witness :
    (run kstep (resize_pty 3 40 120) kernel_session).trace.map Event.rq =
        [.ioctl_TIOCSWINSZ 3 { ws_row := 40, ws_col := 120, ws_xpixel := 0, ws_ypixel := 0 }] ∧
      (run kstep (resize_pty 3 40 120) kernel_session).result = some 0 :=
  have h := geometry_applied_exactly kstep kernel_session 3 0 40 120
    (by decide) (by decide) (by decide) (by decide)
  ⟨h.1, h.2.1 (Reply.ok 0) _ (by rfl) (by decide)⟩

/-- C8, counterexample: on a live session `resize_pty 3 65560 (-1)` is not
rejected (it returns 0) and the window applied has 24 rows and 65535 columns:
the too-large row count is applied as the in-range value 24, not as 65535, and
the negative column count as 65535, not as 0.  `spawn_pty` does the same. -/
theorem geometry_out_of_range_wraps :
    (run kstep (resize_pty 3 65560 (-1)) kernel_session).result = some 0 ∧
      ((run kstep (resize_pty 3 65560 (-1)) kernel_session).state.fd_entry 3).map FdEntry.ws =
        some { ws_row := 24, ws_col := 65535, ws_xpixel := 0, ws_ypixel := 0 } ∧
      (run kstep (spawn_pty 0 65560 (-1)) kernel_empty).result =
        some { ret := 5, master_fd_out := 3 } ∧
      ((run kstep (spawn_pty 0 65560 (-1)) kernel_empty).state.fd_entry 3).map FdEntry.ws =
        some { ws_row := 24, ws_col := 65535, ws_xpixel := 0, ws_ypixel := 0 } := by
  refine ⟨by rfl, by rfl, by rfl, by rfl⟩

/-- C8, amended: geometry is neither clamped nor rejected.  For all `int` rows
and columns, `resize_pty` asks the terminal for the window whose dimensions are
the arguments reduced modulo 65536 (a value between 0 and 65535), `spawn_pty`
passes the same window to `forkpty`, and `resize_pty` returns a negative value
only when the request itself fails. -/
theorem geometry_reduced_mod_65536 {σ : Type} (step : Request → σ → Option Reply × σ) (w : σ)
    (fd master_fd_out rows cols : Int) :
    (run step (resize_pty fd rows cols) w).trace.map Event.rq =
      [.ioctl_TIOCSWINSZ fd { ws_row := rows % 65536, ws_col := cols % 65536,
                              ws_xpixel := 0, ws_ypixel := 0 }] ∧
    ((run step (spawn_pty master_fd_out rows cols) w).trace.head?).map Event.rq =
      some (.forkpty { ws_row := rows % 65536, ws_col := cols % 65536,
                       ws_xpixel := 0, ws_ypixel := 0 }) ∧
    (0 ≤ rows % 65536 ∧ rows % 65536 ≤ 65535 ∧ 0 ≤ cols % 65536 ∧ cols % 65536 ≤ 65535) ∧
    (∀ v, (run step (resize_pty fd rows cols) w).result = some v → v < 0 →
      ∃ e ∈ (run step (resize_pty fd rows cols) w).trace, e.failed) := by
  refine ⟨resize_pty_requests step w fd rows cols,
    spawn_pty_first_request step w master_fd_out rows cols, by omega, ?_⟩
  intro v hv hneg
  unfold resize_pty at hv ⊢
  simp only [to_unsigned_short] at hv ⊢
  rcases hs : step (.ioctl_TIOCSWINSZ fd ⟨rows % 65536, cols % 65536, 0, 0⟩) w with ⟨o, w1⟩
  cases o with
  | none => rw [run_call_none _ hs] at hv; simp at hv
  | some r =>
      rw [run_call_some _ hs] at hv ⊢
      by_cases h1 : r.ret < 0
      · exact ⟨_, List.mem_cons_self _ _, by simpa [Event.failed, Reply.failed] using h1⟩
      · simp [h1, run_done] at hv
        omega

/-- Witness of the amended C8: 65560 rows and -1 columns are requested as 24
rows and 65535 columns. -/
theorem geometry_reduced_mod_65536_witness :
    (run kstep (resize_pty 3 65560 (-1)) kernel_session).trace.map Event.rq =
      [.ioctl_TIOCSWINSZ 3 { ws_row := 65560 % 65536, ws_col := (-1) % 65536,
                             ws_xpixel := 0, ws_ypixel := 0 }] :=
  (geometry_reduced_mod_65536 kstep kernel_session 3 0 65560 (-1)).1

/-- C10: `set_nonblock` adds `O_NONBLOCK` without removing flags.  If reading the
flags fails it returns the negated `errno` and makes no `F_SETFL` request;
otherwise the flags it requests are the flags read OR `O_NONBLOCK`, bit by bit,
and it returns 0 when that request succeeds (the negated `errno` when it
fails); on a kernel that stores the flags, a second call requests the same flags
as the first. -/
theorem set_nonblock_adds_flag {σ : Type} (step : Request → σ → Option Reply × σ) (w : σ)
    (fd : Int) :
    (∀ g w1, step (.fcntl_GETFL fd) w = (some g, w1) → g.ret < 0 →
      run step (set_nonblock fd) w =
        { result := some (-g.errno), state := w1,
          trace := [{ rq := .fcntl_GETFL fd, reply := some g }] }) ∧
    (∀ g w1, step (.fcntl_GETFL fd) w = (some g, w1) → 0 ≤ g.ret →
      (∃ requested : Nat,
        (run step (set_nonblock fd) w).trace.map Event.rq =
          [.fcntl_GETFL fd, .fcntl_SETFL fd (Int.ofNat requested)] ∧
        ∀ i, requested.testBit i = (g.ret.toNat.testBit i || O_NONBLOCK.testBit i)) ∧
      ∀ s w2, step (.fcntl_SETFL fd (or_O_NONBLOCK g.ret)) w1 = (some s, w2) →
        (0 ≤ s.ret → (run step (set_nonblock fd) w).result = some 0) ∧
        (s.ret < 0 → (run step (set_nonblock fd) w).result = some (-s.errno))) ∧
    (∀ k e, k.fd_entry fd = some e → 0 ≤ e.flags →
      (run kstep (set_nonblock fd) k).result = some 0 ∧
      (run kstep (set_nonblock fd) k).trace.map Event.rq =
        [.fcntl_GETFL fd, .fcntl_SETFL fd (or_O_NONBLOCK e.flags)] ∧
      (run kstep (set_nonblock fd) (run kstep (set_nonblock fd) k).state).result = some 0 ∧
      (run kstep (set_nonblock fd) (run kstep (set_nonblock fd) k).state).trace.map Event.rq =
        [.fcntl_GETFL fd, .fcntl_SETFL fd (or_O_NONBLOCK e.flags)]) := by
  refine ⟨?_, ?_, ?_⟩
  · intro g w1 hg h
    exact set_nonblock_run_failed hg h
  · intro g w1 hg h
    refine ⟨⟨g.ret.toNat ||| O_NONBLOCK, set_nonblock_requests hg h, ?_⟩, ?_⟩
    · intro i; exact Nat.testBit_or _ _ _
    · intro s w2 hs
      rw [set_nonblock_run_ok hg h hs]
      constructor
      · intro h0
        have n1 : ¬ s.ret < 0 := by omega
        simp [n1]
      · intro h0; simp [h0]
  · intro k e he h0
    have r1 := set_nonblock_run_ok (kstep_GETFL he) (by simpa [Reply.ok] using h0)
      (kstep_SETFL (or_O_NONBLOCK (Reply.ok e.flags).ret) he)
    have he2 := fd_entry_after_SETFL (or_O_NONBLOCK e.flags) he
    have r2 := set_nonblock_run_ok (kstep_GETFL he2)
      (by simpa [Reply.ok] using or_O_NONBLOCK_nonneg e.flags)
      (kstep_SETFL (or_O_NONBLOCK (Reply.ok (or_O_NONBLOCK e.flags)).ret) he2)
    simp only [Reply.ok] at r1 r2
    rw [r1]
    simp only []
    rw [r2]
    simp [or_O_NONBLOCK_idem]

/-- Witness of C10: on the live session, whose descriptor 3 has flags 2, both the
first and the second call request the flags 2050 = 2 OR 2048 and return 0; on a
closed descriptor the call fails with `EBADF` after the single `F_GETFL`. -/
theorem set_nonblock_adds_flag_witness :
    (run kstep (set_nonblock 3) kernel_session).trace.map Event.rq =
        [.fcntl_GETFL 3, .fcntl_SETFL 3 2050] ∧
      (run kstep (set_nonblock 3)
          (run kstep (set_nonblock 3) kernel_session).state).trace.map Event.rq =
        [.fcntl_GETFL 3, .fcntl_SETFL 3 2050] ∧
      run kstep (set_nonblock 3) kernel_empty =
        { result := some (-EBADF), state := kernel_empty,
          trace := [{ rq := .fcntl_GETFL 3, reply := some (Reply.error EBADF) }] } :=
  have h := (set_nonblock_adds_flag kstep kernel_session 3).2.2 kernel_session
    { fd := 3, flags := 2, ws := { ws_row := 24, ws_col := 80, ws_xpixel := 0, ws_ypixel := 0 } }
    (by rfl) (by decide)
  ⟨h.2.1, h.2.2.2,
   (set_nonblock_adds_flag kstep kernel_empty 3).1 (Reply.error EBADF) kernel_empty (by rfl)
     (by decide)⟩

/-- C6: the child branch of `spawn_pty` as a function of the inherited
environment.  It never returns to the caller; it sets `TERM=xterm-256color` and
`COLORTERM=truecolor` whatever their previous values and changes no other
variable; the program is the value of `SHELL` when set and `/bin/sh` when
unset; it calls `execl` with that path as program and as only argument, and
when the program cannot be executed the child ends with `_exit(127)`. -/
theorem spawn_pty_child_branch (can_exec : String → Bool) (env : Env)
    (master_fd_out rows cols : Int) :
    (run (cstep can_exec) (spawn_pty master_fd_out rows cols) (Child.fresh env)).result = none ∧
    getenv (run (cstep can_exec) (spawn_pty master_fd_out rows cols) (Child.fresh env)).state.env
      "TERM" = some "xterm-256color" ∧
    getenv (run (cstep can_exec) (spawn_pty master_fd_out rows cols) (Child.fresh env)).state.env
      "COLORTERM" = some "truecolor" ∧
    (∀ name, name ≠ "TERM" → name ≠ "COLORTERM" →
      getenv (run (cstep can_exec) (spawn_pty master_fd_out rows cols) (Child.fresh env)).state.env
        name = getenv env name) ∧
    (run (cstep can_exec) (spawn_pty master_fd_out rows cols) (Child.fresh env)).trace.map Event.rq
      = [.forkpty ⟨to_unsigned_short rows, to_unsigned_short cols, 0, 0⟩,
         .setenv "TERM" "xterm-256color" 1,
         .setenv "COLORTERM" "truecolor" 1,
         .getenv "SHELL",
         .execl ((getenv env "SHELL").getD "/bin/sh") [(getenv env "SHELL").getD "/bin/sh"]] ++
        (if can_exec ((getenv env "SHELL").getD "/bin/sh") = true then [] else [._exit 127]) ∧
    (run (cstep can_exec) (spawn_pty master_fd_out rows cols) (Child.fresh env)).state.image =
      (if can_exec ((getenv env "SHELL").getD "/bin/sh") = true then
        some ((getenv env "SHELL").getD "/bin/sh", [(getenv env "SHELL").getD "/bin/sh"])
       else none) ∧
    (run (cstep can_exec) (spawn_pty master_fd_out rows cols) (Child.fresh env)).state.exit_code =
      (if can_exec ((getenv env "SHELL").getD "/bin/sh") = true then none else some 127) := by
  rw [spawn_pty_child_run]
  refine ⟨rfl, ?_, ?_, ?_, ?_, rfl, rfl⟩
  · show getenv (setenv (setenv env "TERM" "xterm-256color" 1) "COLORTERM" "truecolor" 1)
      "TERM" = some "xterm-256color"
    rw [getenv_setenv_other _ _ _ _ _ (by decide), getenv_setenv_self _ _ _ _ (by decide)]
  · show getenv (setenv (setenv env "TERM" "xterm-256color" 1) "COLORTERM" "truecolor" 1)
      "COLORTERM" = some "truecolor"
    rw [getenv_setenv_self _ _ _ _ (by decide)]
  · intro name h1 h2
    show getenv (setenv (setenv env "TERM" "xterm-256color" 1) "COLORTERM" "truecolor" 1)
      name = getenv env name
    rw [getenv_setenv_other _ _ _ _ _ h2, getenv_setenv_other _ _ _ _ _ h1]
  · by_cases hc : can_exec ((getenv env "SHELL").getD "/bin/sh") = true <;> simp [hc]

/-- Witness of C6: with `SHELL=/bin/zsh` and `TERM=dumb` inherited and no
executable at that path, the child asks for `/bin/zsh` and exits with 127. -/
theorem spawn_pty_child_branch_witness :
    (run (cstep fun _ => false) (spawn_pty 0 24 80)
        (Child.fresh [("SHELL", "/bin/zsh"), ("TERM", "dumb")])).state.exit_code = some 127 ∧
      getenv (run (cstep fun _ => false) (spawn_pty 0 24 80)
        (Child.fresh [("SHELL", "/bin/zsh"), ("TERM", "dumb")])).state.env "TERM" =
        some "xterm-256color" :=
  have h := spawn_pty_child_branch (fun _ => false) [("SHELL", "/bin/zsh"), ("TERM", "dumb")]
    0 24 80
  ⟨h.2.2.2.2.2.2, h.2.1⟩

/-- C9, counterexample: child 5 exits with code 3 and `wait_process 5` returns 3.
A later `spawn_pty` is given the identifier 5 again; the next `wait_process 5`
returns 0 (running) instead of a negative error, and once the new child has
exited with code 7 it returns 7, the status of another process. -/
theorem wait_process_follows_recycled_pid :
    (run kstep (wait_process 5)
        (apply_ops [.spawn 0 24 80 5, .child_terminates 5 768] kernel_empty)).result = some 3 ∧
      (run kstep (wait_process 5)
        (apply_ops [.spawn 0 24 80 5, .child_terminates 5 768, .wait 5, .spawn 0 24 80 5]
          kernel_empty)).result = some 0 ∧
      (run kstep (wait_process 5)
        (apply_ops [.spawn 0 24 80 5, .child_terminates 5 768, .wait 5, .spawn 0 24 80 5,
            .child_terminates 5 1792]
          kernel_empty)).result = some 7 := by
  refine ⟨by rfl, by rfl, by rfl⟩

/-- C9, amended: over the kernel's child table, once `wait_process pid` has
collected the status of the terminated child `pid`, every later
`wait_process pid` returns the negative error `-ECHILD`, whatever polls, signals,
child terminations and spawns happen in between, provided no spawn in between is
given the identifier `pid` again. -/
theorem wait_process_after_reap (k : Kernel) (pid status : Int) (ops : List Op)
    (hpid : 0 < pid) (hz : k.child pid = some (some status))
    (hno : ∀ op ∈ ops, ¬ op.recycles pid) :
    (run kstep (wait_process pid) k).result =
      some (if WIFEXITED status then WEXITSTATUS status
            else if WIFSIGNALED status then 128 + WTERMSIG status else -1) ∧
    (run kstep (wait_process pid)
      (apply_ops ops (run kstep (wait_process pid) k).state)).result = some (-ECHILD) ∧
    -ECHILD < 0 := by
  have n1 : ¬ pid < 0 := by omega
  have n2 : ¬ pid = 0 := by omega
  refine ⟨?_, ?_, by decide⟩
  · rw [wait_process_result (kstep_waitpid_terminated WNOHANG hz)]
    simp [n1, n2]
  · apply wait_process_absent
    apply apply_ops_keeps_absent ops _ hno
    rw [wait_process_result (kstep_waitpid_terminated WNOHANG hz)]
    exact lookup_filter_self _ _

/-- Witness of the amended C9: child 7 was killed by signal 9; the first poll
returns 137 and, after a spawn of process 8 and a further poll, the next poll
returns `-ECHILD`. -/
theorem wait_process_after_reap_witness :
    (run kstep (wait_process 7) (kernel_terminated 9)).result = some 137 ∧
      (run kstep (wait_process 7)
        (apply_ops [.spawn 0 24 80 8, .wait 7]
          (run kstep (wait_process 7) (kernel_terminated 9)).state)).result = some (-10) :=
  have h := wait_process_after_reap (kernel_terminated 9) 7 9 [.spawn 0 24 80 8, .wait 7]
    (by decide) (by rfl) (by
      intro op hop
      simp only [List.mem_cons, List.mem_singleton, List.not_mem_nil, or_false] at hop
      rcases hop with rfl | rfl
      · show ¬ ((8 : Int) = 7)
        decide
      · exact fun hf => hf)
  ⟨h.1, h.2.1⟩

end Pty
